import Mathlib

/-!
Shallow embedding of `src/bot.py` (SolanaAnalyzer): identifier validation,
the four data-source fetchers, the three-strategy holder-distribution
resolution, the rug-pull risk check, the market-cap computation, the scoring
rubric and the `analyze_token` aggregation.

Modelling conventions:
* Python floats are modelled as `ℚ`; Python non-negative ints as `ℕ`.
* Each network response is an `Option` of its parsed payload: `none` models a
  transport error, an exception or a non-200 status (every path that falls
  into a fetcher's `except` clause or past its `if response.status == 200`).
* `round(x, 2)` is modelled as `⌊100 x + 1/2⌋ / 100` (Mathlib's `round`
  convention at ties; no claim exercises a tie).
* Holder-account dictionaries carry only their `amount` field, the only field
  the program ever reads besides storing the address.
-/

namespace AnalyseBot

/-- `round(x, 2)` of the source: round to two decimal places
(`⌊100 x + 1/2⌋ / 100`, i.e. Mathlib's `round (100 x) / 100`). -/
def round2 (x : ℚ) : ℚ := ((⌊x * 100 + 1 / 2⌋ : ℤ) : ℚ) / 100

/-- The bitcoin base-58 alphabet used by the `base58` package
(`b58decode` succeeds exactly when every character is in it). -/
def base58Alphabet : List Char :=
  "123456789ABCDEFGHJKLMNPQRSTUVWXYZabcdefghijkmnopqrstuvwxyz".toList

/-- Python `str.isspace()` on a single character: the characters
`str.rstrip()` removes (Unicode whitespace plus the bidirectional
separator control characters). -/
def isPythonSpace (c : Char) : Bool :=
  decide ((0x9 ≤ c.toNat ∧ c.toNat ≤ 0xd) ∨ (0x1c ≤ c.toNat ∧ c.toNat ≤ 0x1f) ∨
    c.toNat = 0x20 ∨ c.toNat = 0x85 ∨ c.toNat = 0xa0 ∨ c.toNat = 0x1680 ∨
    (0x2000 ≤ c.toNat ∧ c.toNat ≤ 0x200a) ∨ c.toNat = 0x2028 ∨ c.toNat = 0x2029 ∨
    c.toNat = 0x202f ∨ c.toNat = 0x205f ∨ c.toNat = 0x3000)

/-- Python `v.rstrip()`: drop trailing whitespace. -/
def pyRstrip (l : List Char) : List Char :=
  (l.reverse.dropWhile isPythonSpace).reverse

/-- `base58.b58decode(mint)` succeeds (does not raise): the package first
strips trailing whitespace (`v = v.rstrip()`), then requires every remaining
character to lie in the bitcoin alphabet (a whitespace-only or empty input
decodes to the empty byte string). -/
def b58decodes (s : String) : Bool :=
  (pyRstrip s.toList).all (fun c => base58Alphabet.contains c)

/-- `SolanaAnalyzer.is_valid_mint`, bot.py lines 44-52. -/
def is_valid_mint (mint : String) : Bool :=
  if mint = "" ∨ mint.length < 32 ∨ mint.length > 44 then false
  else b58decodes mint

/-- One entry of the DexScreener `pairs` list.  `priceUsd = none` models a
pair whose `priceUsd` field is absent or falsy. -/
structure DexPair where
  priceUsd : Option ℚ
  priceChangeH24 : ℚ
  volumeH24 : ℚ
  liquidityUsd : ℚ
deriving DecidableEq

/-- The dictionary returned by `get_dexscreener_data`. -/
structure MarketData where
  pools : ℕ
  price_usd : ℚ
  price_change_24h : ℚ
  volume_24h : ℚ
  liquidity : ℚ
deriving DecidableEq

/-- The all-zero market snapshot returned on any failure. -/
def zeroMarketData : MarketData := ⟨0, 0, 0, 0, 0⟩

/-- The `for pair in pairs: if pair.get("priceUsd"): ... break` loop of
bot.py lines 71-75: price and 24h change of the first pair with a price. -/
def firstPairPrice : List DexPair → ℚ × ℚ
  | [] => (0, 0)
  | p :: ps =>
    match p.priceUsd with
    | some q => (q, p.priceChangeH24)
    | none => firstPairPrice ps

/-- `SolanaAnalyzer.get_dexscreener_data`, bot.py lines 54-93, as a function
of the parsed response (`none` = transport error or non-200; `some []` = a
response whose `pairs` key is absent or empty, which is falsy). -/
def get_dexscreener_data : Option (List DexPair) → MarketData
  | some pairs =>
    if pairs.isEmpty then zeroMarketData
    else
      { pools := pairs.length
        price_usd := (firstPairPrice pairs).1
        price_change_24h := (firstPairPrice pairs).2
        volume_24h := (pairs.map (fun p => p.volumeH24)).sum
        liquidity := (pairs.map (fun p => p.liquidityUsd)).sum }
  | none => zeroMarketData

/-- Parsed fields of a successful `getAsset` response; `none` in a field
models that key being absent from the nested dictionaries. -/
structure MetaResult where
  supply : Option ℕ
  decimals : Option ℕ
  name : Option String
  symbol : Option String
deriving DecidableEq

/-- The dictionary returned by `get_token_metadata`. -/
structure TokenMetadata where
  name : String
  symbol : String
  supply : ℕ
  decimals : ℕ
  created_at : Option String
deriving DecidableEq

/-- `SolanaAnalyzer.get_token_metadata`, bot.py lines 95-146.  The
`created_at` extraction of the source is unimplemented (`pass`), so the field
is always `none`. -/
def get_token_metadata : Option MetaResult → TokenMetadata
  | some r =>
    { name := r.name.getD "Unknown"
      symbol := r.symbol.getD "Unknown"
      supply := r.supply.getD 0
      decimals := r.decimals.getD 0
      created_at := none }
  | none => ⟨"Unknown", "Unknown", 0, 0, none⟩

/-- Parsed `result.value` of a successful `getTokenSupply` response. -/
structure SupplyResult where
  amount : Option ℕ
  decimals : Option ℕ
deriving DecidableEq

/-- The dictionary returned by `get_token_supply_info`. -/
structure SupplyInfo where
  supply : ℕ
  decimals : ℕ
deriving DecidableEq

/-- `SolanaAnalyzer.get_token_supply_info`, bot.py lines 148-171. -/
def get_token_supply_info : Option SupplyResult → SupplyInfo
  | some v => ⟨v.amount.getD 0, v.decimals.getD 0⟩
  | none => ⟨0, 0⟩

/-- The dictionary returned by every holder-resolution strategy. -/
structure HolderDist where
  holders : ℕ
  top_10_share : ℚ
deriving DecidableEq

/-- The all-zero holder distribution. -/
def zeroHolderDist : HolderDist := ⟨0, 0⟩

/-- Insert into a descending-ordered list. -/
def insertDesc (x : ℚ) : List ℚ → List ℚ
  | [] => [x]
  | y :: ys => if x ≥ y then x :: y :: ys else y :: insertDesc x ys

/-- `holders_data.sort(key=..., reverse=True)`: sort amounts descending. -/
def sortDesc : List ℚ → List ℚ
  | [] => []
  | x :: xs => insertDesc x (sortDesc xs)

/-- The shared holder-metric block of bot.py lines 209-223 and 279-293: sort
descending, take the top 10, divide by the total (guarded), round to two
decimals. -/
def distOfAmounts (holders_data : List ℚ) : HolderDist :=
  let sorted := sortDesc holders_data
  let top_10 := sorted.take 10
  let total_supply := sorted.sum
  let top_10_amount := top_10.sum
  let top_10_share := if 0 < total_supply then top_10_amount / total_supply * 100 else 0
  ⟨holders_data.length, round2 top_10_share⟩

/-- The Helius `getTokenAccounts` part of `get_holders_info_helius`, bot.py
lines 175-223: `some` when the strategy returns a result, `none` on every
path that falls through to the fallback call (exception, non-200, empty
`token_accounts`, or no account with a positive amount).  The input list
holds the `amount` fields of the returned token accounts. -/
def tryHelius : Option (List ℚ) → Option HolderDist
  | none => none
  | some token_accounts =>
    if token_accounts.isEmpty then none
    else
      let holders_data := token_accounts.filter (fun a => decide (0 < a))
      if holders_data.length = 0 then none
      else some (distOfAmounts holders_data)

/-- `SolanaAnalyzer.get_holders_info_fallback`, bot.py lines 230-297, as a
function of the parsed `getProgramAccounts` result (`none` = exception or
non-200; the list holds each account's parsed `tokenAmount.amount`). -/
def get_holders_info_fallback : Option (List ℚ) → HolderDist
  | none => zeroHolderDist
  | some result =>
    let holders_data := result.filter (fun a => decide (0 < a))
    if holders_data.length = 0 then zeroHolderDist
    else distOfAmounts holders_data

/-- `SolanaAnalyzer.get_holders_info_solscan_alternative`, bot.py lines
299-349.  Outer `none` = exception or non-200; `some none` = unexpected
payload shape (neither a `data`-wrapped nor a bare list); `some (some l)` =
the holder list (amounts not filtered: zero-amount entries are counted). -/
def get_holders_info_solscan_alternative : Option (Option (List ℚ)) → HolderDist
  | none => zeroHolderDist
  | some none => zeroHolderDist
  | some (some holders_data) =>
    if holders_data.isEmpty then zeroHolderDist
    else
      let sorted_holders := sortDesc holders_data
      let top_10 := sorted_holders.take 10
      let total_supply := holders_data.sum
      let top_10_amount := top_10.sum
      let top_10_share := if 0 < total_supply then top_10_amount / total_supply * 100 else 0
      ⟨holders_data.length, round2 top_10_share⟩

/-- Parsed token-mint authorities (`info.freezeAuthority`, `info.mintAuthority`). -/
structure MintAuthorities where
  freezeAuthority : Option String
  mintAuthority : Option String
deriving DecidableEq

/-- Parsed `result.value` of a `getAccountInfo` response; `data = none`
models a falsy `value["data"]`. -/
structure AccountValue where
  data : Option MintAuthorities
deriving DecidableEq

/-- `SolanaAnalyzer.check_rug_pull_risk`, bot.py lines 366-404.  Outer
`none` = exception or non-200; `some none` = a null/falsy `result.value`. -/
def check_rug_pull_risk : Option (Option AccountValue) → Bool
  | some (some value) =>
    match value.data with
    | some info => info.freezeAuthority.isSome || info.mintAuthority.isSome
    | none => false
  | some none => false
  | none => false

/-- The external responses one `analyze_token` invocation can observe. -/
structure World where
  dexResp : Option (List DexPair)
  metaResp : Option MetaResult
  supplyResp : Option SupplyResult
  heliusAccounts : Option (List ℚ)
  solscanResp : Option (Option (List ℚ))
  programAccounts : Option (List ℚ)
  accountInfoResp : Option (Option AccountValue)

/-- `SolanaAnalyzer.get_holders_info_helius`, bot.py lines 173-228: the
Helius attempt, falling back to `get_holders_info_fallback` on failure. -/
def get_holders_info_helius (w : World) : HolderDist :=
  match tryHelius w.heliusAccounts with
  | some d => d
  | none => get_holders_info_fallback w.programAccounts

/-- `SolanaAnalyzer.get_holders_info`, bot.py lines 351-364. -/
def get_holders_info (w : World) : HolderDist :=
  let holders_info := get_holders_info_helius w
  let holders_info2 :=
    if holders_info.holders = 0 then get_holders_info_solscan_alternative w.solscanResp
    else holders_info
  if holders_info2.holders = 0 then get_holders_info_fallback w.programAccounts
  else holders_info2

/-- `SolanaAnalyzer.calculate_market_cap`, bot.py lines 406-412.  (`decimals`
is a `ℕ` here, so the `decimals < 0` disjunct of the source guard is
vacuous.) -/
def calculate_market_cap (price_usd : ℚ) (supply : ℕ) (decimals : ℕ) : ℚ :=
  if supply = 0 ∨ decimals < 0 then 0
  else
    let adjusted_supply : ℚ := (supply : ℚ) / 10 ^ decimals
    price_usd * adjusted_supply

/-- The dictionary keys read by `calculate_score`, each `Option` to model
`data.get(key, default)` on a possibly missing key. -/
structure ScoreInput where
  pools : Option ℕ
  volume_24h : Option ℚ
  liquidity : Option ℚ
  price_change_24h : Option ℚ
  market_cap : Option ℚ
  holders : Option ℕ
  top_10_share : Option ℚ
  rug_pull_risk : Option Bool
deriving DecidableEq

/-- Pools category points, bot.py lines 419-428 (`score += ...`). -/
def pools_points (pools : ℕ) : ℕ :=
  if pools ≥ 5 then 2 else if pools ≥ 2 then 1 else 0

/-- Pools category explanation line, bot.py lines 419-428. -/
def pools_line (pools : ℕ) : String :=
  if pools ≥ 5 then "🔢 **Pools** : +2/2 pts (5+ pools = excellente liquidité)"
  else if pools ≥ 2 then "🔢 **Pools** : +1/2 pts (2-4 pools = bonne liquidité)"
  else "🔢 **Pools** : +0/2 pts (< 2 pools = liquidité faible)"

/-- Volume category points, bot.py lines 430-442. -/
def volume_points (volume : ℚ) : ℕ :=
  if volume ≥ 1000000 then 3 else if volume ≥ 100000 then 2
  else if volume ≥ 10000 then 1 else 0

/-- Volume category explanation line, bot.py lines 430-442. -/
def volume_line (volume : ℚ) : String :=
  if volume ≥ 1000000 then "📊 **Volume 24h** : +3/3 pts (1M$+ = très actif)"
  else if volume ≥ 100000 then "📊 **Volume 24h** : +2/3 pts (100K$+ = actif)"
  else if volume ≥ 10000 then "📊 **Volume 24h** : +1/3 pts (10K$+ = peu actif)"
  else "📊 **Volume 24h** : +0/3 pts (< 10K$ = très peu actif)"

/-- Liquidity category points, bot.py lines 444-456. -/
def liquidity_points (liquidity : ℚ) : ℕ :=
  if liquidity ≥ 1000000 then 3 else if liquidity ≥ 100000 then 2
  else if liquidity ≥ 10000 then 1 else 0

/-- Liquidity category explanation line, bot.py lines 444-456. -/
def liquidity_line (liquidity : ℚ) : String :=
  if liquidity ≥ 1000000 then "💧 **Liquidité** : +3/3 pts (1M$+ = excellente)"
  else if liquidity ≥ 100000 then "💧 **Liquidité** : +2/3 pts (100K$+ = bonne)"
  else if liquidity ≥ 10000 then "💧 **Liquidité** : +1/3 pts (10K$+ = faible)"
  else "💧 **Liquidité** : +0/3 pts (< 10K$ = très faible)"

/-- Price-stability category points, bot.py lines 458-467
(`price_change = abs(...)`). -/
def stability_points (price_change_24h : ℚ) : ℕ :=
  if |price_change_24h| ≤ 5 then 2 else if |price_change_24h| ≤ 15 then 1 else 0

/-- Price-stability category explanation line, bot.py lines 458-467. -/
def stability_line (price_change_24h : ℚ) : String :=
  if |price_change_24h| ≤ 5 then "📈 **Stabilité** : +2/2 pts (±5% = très stable)"
  else if |price_change_24h| ≤ 15 then "📈 **Stabilité** : +1/2 pts (±15% = modérément stable)"
  else "📈 **Stabilité** : +0/2 pts (>15% = très volatil)"

/-- Market-cap category points, bot.py lines 469-481. -/
def market_cap_points (market_cap : ℚ) : ℕ :=
  if market_cap ≥ 10000000 then 3 else if market_cap ≥ 1000000 then 2
  else if market_cap ≥ 100000 then 1 else 0

/-- Market-cap category explanation line, bot.py lines 469-481. -/
def market_cap_line (market_cap : ℚ) : String :=
  if market_cap ≥ 10000000 then "🏦 **Market Cap** : +3/3 pts (10M$+ = large cap)"
  else if market_cap ≥ 1000000 then "🏦 **Market Cap** : +2/3 pts (1M$+ = mid cap)"
  else if market_cap ≥ 100000 then "🏦 **Market Cap** : +1/3 pts (100K$+ = small cap)"
  else "🏦 **Market Cap** : +0/3 pts (< 100K$ = micro cap)"

/-- Holders category points, bot.py lines 483-495. -/
def holders_points (holders : ℕ) : ℕ :=
  if holders ≥ 10000 then 3 else if holders ≥ 1000 then 2
  else if holders ≥ 100 then 1 else 0

/-- Holders category explanation line, bot.py lines 483-495. -/
def holders_line (holders : ℕ) : String :=
  if holders ≥ 10000 then "👥 **Holders** : +3/3 pts (10K+ = très adopté)"
  else if holders ≥ 1000 then "👥 **Holders** : +2/3 pts (1K+ = bien adopté)"
  else if holders ≥ 100 then "👥 **Holders** : +1/3 pts (100+ = peu adopté)"
  else "👥 **Holders** : +0/3 pts (< 100 = très peu adopté)"

/-- Distribution category points, bot.py lines 497-506. -/
def distribution_points (top_10_share : ℚ) : ℕ :=
  if top_10_share ≤ 20 then 2 else if top_10_share ≤ 50 then 1 else 0

/-- Distribution category explanation line, bot.py lines 497-506. -/
def distribution_line (top_10_share : ℚ) : String :=
  if top_10_share ≤ 20 then "🧮 **Distribution** : +2/2 pts (≤20% = très décentralisé)"
  else if top_10_share ≤ 50 then "🧮 **Distribution** : +1/2 pts (≤50% = moyennement décentralisé)"
  else "🧮 **Distribution** : +0/2 pts (>50% = très centralisé)"

/-- Security category points, bot.py lines 508-513. -/
def security_points (rug_pull_risk : Bool) : ℕ :=
  if !rug_pull_risk then 2 else 0

/-- Security category explanation line, bot.py lines 508-513. -/
def security_line (rug_pull_risk : Bool) : String :=
  if !rug_pull_risk then "🚨 **Sécurité** : +2/2 pts (autorités révoquées = sécurisé)"
  else "🚨 **Sécurité** : +0/2 pts (autorités actives = risque élevé)"

/-- The running `score` accumulator of `calculate_score` before the final
`min(score, 20)`, with each `data.get(key, default)` applied. -/
def raw_score (data : ScoreInput) : ℕ :=
  pools_points (data.pools.getD 0)
    + volume_points (data.volume_24h.getD 0)
    + liquidity_points (data.liquidity.getD 0)
    + stability_points (data.price_change_24h.getD 0)
    + market_cap_points (data.market_cap.getD 0)
    + holders_points (data.holders.getD 0)
    + distribution_points (data.top_10_share.getD 100)
    + security_points (data.rug_pull_risk.getD true)

/-- The `explanations` list of `calculate_score`, in rubric order. -/
def score_explanations (data : ScoreInput) : List String :=
  [pools_line (data.pools.getD 0),
   volume_line (data.volume_24h.getD 0),
   liquidity_line (data.liquidity.getD 0),
   stability_line (data.price_change_24h.getD 0),
   market_cap_line (data.market_cap.getD 0),
   holders_line (data.holders.getD 0),
   distribution_line (data.top_10_share.getD 100),
   security_line (data.rug_pull_risk.getD true)]

/-- `SolanaAnalyzer.calculate_score`, bot.py lines 414-515. -/
def calculate_score (data : ScoreInput) : ℕ × List String :=
  (min (raw_score data) 20, score_explanations data)

/-- The two error shapes `analyze_token` can return: the invalid-mint error
dictionary of line 531 and the caught-exception dictionary of line 588. -/
inductive AnalyzeError where
  | invalidMint
  | analysisFailed
deriving DecidableEq

/-- The `analysis_data` dictionary assembled by `analyze_token`. -/
structure AnalysisRecord where
  mint : String
  name : String
  symbol : String
  created_at : Option String
  pools : ℕ
  liquidity : ℚ
  volume_24h : ℚ
  price_usd : ℚ
  price_change_24h : ℚ
  market_cap : ℚ
  supply : ℕ
  decimals : ℕ
  holders : ℕ
  top_10_share : ℚ
  rug_pull_risk : Bool
  score : ℕ
  explanations : List String
deriving DecidableEq

/-- The four results delivered by `asyncio.gather(..., return_exceptions=True)`
(bot.py lines 535-541).  `Except.error ()` models a coroutine that raised:
with `return_exceptions=True` the exception object itself is returned in
that slot. -/
structure GatherOutcome where
  dex_data : Except Unit MarketData
  metadata : Except Unit TokenMetadata
  supply_info : Except Unit SupplyInfo
  holders_info : Except Unit HolderDist

/-- Python `a or b` on two non-negative ints: `a` when nonzero, else `b`
(bot.py lines 547-548). -/
def pyOrNat (a b : ℕ) : ℕ := if a ≠ 0 then a else b

/-- The merge-and-score block of `analyze_token`, bot.py lines 546-584, on
successfully gathered component values. -/
def mergeRecord (mint : String) (dex_data : MarketData) (metadata : TokenMetadata)
    (supply_info : SupplyInfo) (holders_info : HolderDist) (rug_pull_risk : Bool) :
    AnalysisRecord :=
  let supply := pyOrNat supply_info.supply metadata.supply
  let decimals := pyOrNat supply_info.decimals metadata.decimals
  let market_cap := calculate_market_cap dex_data.price_usd supply decimals
  let scoreData : ScoreInput :=
    ⟨some dex_data.pools, some dex_data.volume_24h, some dex_data.liquidity,
     some dex_data.price_change_24h, some market_cap, some holders_info.holders,
     some holders_info.top_10_share, some rug_pull_risk⟩
  { mint := mint
    name := metadata.name
    symbol := metadata.symbol
    created_at := metadata.created_at
    pools := dex_data.pools
    liquidity := dex_data.liquidity
    volume_24h := dex_data.volume_24h
    price_usd := dex_data.price_usd
    price_change_24h := dex_data.price_change_24h
    market_cap := market_cap
    supply := supply
    decimals := decimals
    holders := holders_info.holders
    top_10_share := holders_info.top_10_share
    rug_pull_risk := rug_pull_risk
    score := (calculate_score scoreData).1
    explanations := (calculate_score scoreData).2 }

/-- Bot.py lines 546-588 applied to the gathered results: any slot holding a
returned exception object makes the first `.get` attribute access raise, and
the surrounding `try` converts that to the analysis-failed error. -/
def analyze_token_merge (mint : String) (g : GatherOutcome) (rug_pull_risk : Bool) :
    Except AnalyzeError AnalysisRecord :=
  match g.dex_data, g.metadata, g.supply_info, g.holders_info with
  | .ok dd, .ok md, .ok si, .ok hi => .ok (mergeRecord mint dd md si hi rug_pull_risk)
  | _, _, _, _ => .error .analysisFailed

/-- `SolanaAnalyzer.analyze_token`, bot.py lines 528-588, as a function of
the mint string and the external world.  The four source coroutines each
catch their own exceptions and return defaults, so every gathered slot is
`Except.ok` here. -/
def analyze_token (mint : String) (w : World) : Except AnalyzeError AnalysisRecord :=
  if ¬ is_valid_mint mint then .error .invalidMint
  else
    analyze_token_merge mint
      ⟨.ok (get_dexscreener_data w.dexResp), .ok (get_token_metadata w.metaResp),
       .ok (get_token_supply_info w.supplyResp), .ok (get_holders_info w)⟩
      (check_rug_pull_risk w.accountInfoResp)

/-- Strategy A of the fallback chain as the spec names it: the indexer
token-accounts query on its own (its output when it does not fall through,
else the all-zero distribution). -/
def strategyA (w : World) : HolderDist := (tryHelius w.heliusAccounts).getD zeroHolderDist

/-- Strategy B of the fallback chain as the spec names it: the third-party
listing endpoint. -/
def strategyB (w : World) : HolderDist := get_holders_info_solscan_alternative w.solscanResp

/-- Strategy C of the fallback chain as the spec names it: the raw ledger
program-account scan. -/
def strategyC (w : World) : HolderDist := get_holders_info_fallback w.programAccounts

/-- The resolution order the spec claims (refinement target, written from the
claim text): A, then B, then C, stopping at the first strategy with
`holderCount > 0`, else all-zero. -/
def claimedChainABC (w : World) : HolderDist :=
  if 0 < (strategyA w).holders then strategyA w
  else if 0 < (strategyB w).holders then strategyB w
  else if 0 < (strategyC w).holders then strategyC w
  else zeroHolderDist

/-- The resolution order the code actually implements (refinement target,
written from the amended claim text): A, then C (the in-resolver fallback of
strategy A), then B, stopping at the first strategy with `holderCount > 0`,
else all-zero. -/
def amendedChainACB (w : World) : HolderDist :=
  if 0 < (strategyA w).holders then strategyA w
  else if 0 < (strategyC w).holders then strategyC w
  else if 0 < (strategyB w).holders then strategyB w
  else zeroHolderDist

/-- Sum of the 10 largest entries (spec formula: top 10 after sorting
descending). -/
def top10sum (l : List ℚ) : ℚ := ((sortDesc l).take 10).sum

/-- A syntactically valid mint string (the USDC mint used in the bot's own
usage examples). -/
def usdcMint : String := "EPjFWdd5AufqSSqeM2qN1xzybapC8G4wEGGkZwyTDt1v"

/-- The concrete world witnessing that strategy C is consulted before
strategy B: the indexer query fails, the program scan sees one holder with
amount 5, the listing endpoint sees two holders with amounts 3 and 1. -/
def chainWorld : World :=
  ⟨none, none, none, none, some (some [3, 1]), some [5], none⟩

/-- An all-failure world: every external request fails. -/
def emptyWorld : World := ⟨none, none, none, none, none, none, none⟩

lemma insertDesc_sum (x : ℚ) (l : List ℚ) : (insertDesc x l).sum = x + l.sum := by
  induction l with
  | nil => simp [insertDesc]
  | cons y ys ih =>
    unfold insertDesc
    split
    · simp
    · simp [List.sum_cons, ih]; ring

lemma sortDesc_sum (l : List ℚ) : (sortDesc l).sum = l.sum := by
  induction l with
  | nil => rfl
  | cons x xs ih => simp [sortDesc, insertDesc_sum, ih]

lemma filter_pos_sum_pos (l : List ℚ)
    (h : l.filter (fun a => decide (0 < a)) ≠ []) :
    0 < (l.filter (fun a => decide (0 < a))).sum := by
  apply List.sum_pos
  · intro a ha
    have := List.of_mem_filter ha
    simpa using this
  · exact h

lemma distOfAmounts_holders (l : List ℚ) : (distOfAmounts l).holders = l.length := rfl

lemma tryHelius_holders_pos (o : Option (List ℚ)) (d : HolderDist)
    (h : tryHelius o = some d) : 0 < d.holders := by
  match o with
  | none => simp [tryHelius] at h
  | some l =>
    simp only [tryHelius] at h
    by_cases h1 : l.isEmpty
    · rw [if_pos h1] at h; cases h
    · rw [if_neg h1] at h
      by_cases h2 : (l.filter (fun a => decide (0 < a))).length = 0
      · rw [if_pos h2] at h; cases h
      · rw [if_neg h2] at h
        injection h with h'
        rw [← h', distOfAmounts_holders]
        omega

lemma fallback_holders_zero (o : Option (List ℚ))
    (h : (get_holders_info_fallback o).holders = 0) :
    get_holders_info_fallback o = zeroHolderDist := by
  match o with
  | none => rfl
  | some l =>
    simp only [get_holders_info_fallback] at h ⊢
    by_cases h1 : (l.filter (fun a => decide (0 < a))).length = 0
    · rw [if_pos h1]
    · exfalso
      rw [if_neg h1, distOfAmounts_holders] at h
      exact h1 h

lemma solscan_holders_zero (o : Option (Option (List ℚ)))
    (h : (get_holders_info_solscan_alternative o).holders = 0) :
    get_holders_info_solscan_alternative o = zeroHolderDist := by
  match o with
  | none => rfl
  | some none => rfl
  | some (some l) =>
    simp only [get_holders_info_solscan_alternative] at h ⊢
    by_cases h1 : l.isEmpty
    · rw [if_pos h1]
    · exfalso
      rw [if_neg h1] at h
      rw [List.isEmpty_iff, ← List.length_eq_zero] at h1
      exact h1 h

/-- C1 (counterexample): with the indexer query failing, the program scan
seeing one holder (amount 5) and the listing endpoint seeing two holders
(amounts 3 and 1), the resolver returns the program-scan result (1 holder),
not the listing result (2 holders) that the claimed A-then-B-then-C order
would produce: strategy C is consulted before strategy B. -/
theorem c1_chain_counterexample :
    get_holders_info chainWorld = ⟨1, 100⟩ ∧
    claimedChainABC chainWorld = ⟨2, 100⟩ ∧
    get_holders_info chainWorld ≠ claimedChainABC chainWorld := by
  have hfilter5 : ([5] : List ℚ).filter (fun a => decide (0 < a)) = [5] := by
    norm_num [List.filter_cons, List.filter_nil]
  have hC : get_holders_info_fallback (some ([5] : List ℚ)) = ⟨1, 100⟩ := by
    simp only [get_holders_info_fallback, hfilter5]
    norm_num [distOfAmounts, sortDesc, insertDesc, round2]
  have hB : get_holders_info_solscan_alternative (some (some ([3, 1] : List ℚ))) = ⟨2, 100⟩ := by
    simp only [get_holders_info_solscan_alternative]
    norm_num [sortDesc, insertDesc, round2]
  have hlhs : get_holders_info chainWorld = ⟨1, 100⟩ := by
    have hhel : get_holders_info_helius chainWorld = get_holders_info_fallback (some [5]) := rfl
    simp only [get_holders_info, hhel, hC]
    norm_num
  have hrhs : claimedChainABC chainWorld = ⟨2, 100⟩ := by
    have hA : strategyA chainWorld = zeroHolderDist := rfl
    have hBw : strategyB chainWorld = ⟨2, 100⟩ := hB
    simp only [claimedChainABC, hA, hBw, zeroHolderDist]
    norm_num
  refine ⟨hlhs, hrhs, ?_⟩
  rw [hlhs, hrhs]
  simp

/-- C1 (amended): the holder-distribution resolution tries strategy A
(indexer token-accounts) first; if it yields `holderCount = 0`, strategy C
(raw ledger program-account scan) is attempted next, from within the
strategy-A resolver; if C also yields 0, strategy B (third-party listing
endpoint) is attempted; the final result equals the output of the first
strategy in the order A, C, B producing `holderCount > 0`, and is the
all-zero HolderDistribution if all three yield zero holders. -/
theorem c1_fallback_chain_amended (w : World) :
    get_holders_info w = amendedChainACB w := by
  cases h : tryHelius w.heliusAccounts with
  | some d =>
    have hd := tryHelius_holders_pos _ _ h
    have hne : ¬ d.holders = 0 := Nat.pos_iff_ne_zero.mp hd
    simp [get_holders_info, get_holders_info_helius, amendedChainACB, strategyA,
      h, hne, hd]
  | none =>
    by_cases hc : (get_holders_info_fallback w.programAccounts).holders = 0
    · by_cases hb : (get_holders_info_solscan_alternative w.solscanResp).holders = 0
      · simp [get_holders_info, get_holders_info_helius, amendedChainACB,
          strategyA, strategyB, strategyC, h, hc, hb,
          fallback_holders_zero _ hc, solscan_holders_zero _ hb, zeroHolderDist]
      · simp [get_holders_info, get_holders_info_helius, amendedChainACB,
          strategyA, strategyB, strategyC, h, hc, hb, Nat.pos_iff_ne_zero,
          zeroHolderDist]
    · simp [get_holders_info, get_holders_info_helius, amendedChainACB,
        strategyA, strategyB, strategyC, h, hc, Nat.pos_iff_ne_zero,
        zeroHolderDist]

lemma distOfAmounts_eq (hd : List ℚ) (hpos : 0 < hd.sum) :
    distOfAmounts hd = ⟨hd.length, round2 (100 * top10sum hd / hd.sum)⟩ := by
  simp only [distOfAmounts, sortDesc_sum]
  rw [if_pos hpos]
  have harg : (List.take 10 (sortDesc hd)).sum / hd.sum * 100
      = 100 * top10sum hd / hd.sum := by
    unfold top10sum; ring
  rw [harg]

/-- C7: for every holder-resolution strategy that succeeds on a non-empty
list of holder balances, `top10SharePct` equals
`round2 (100 * sum of the 10 largest balances / sum of all observed
balances)` (top 10 taken after sorting descending; the indexer and
program-scan strategies observe only the positive balances they filtered),
and equals 0 when the total observed supply is 0 (the division is guarded,
reachable only for the listing strategy, which does not filter). -/
theorem c7_top10_share (l : List ℚ) :
    (l.filter (fun a => decide (0 < a)) ≠ [] →
      tryHelius (some l) =
        some ⟨(l.filter (fun a => decide (0 < a))).length,
          round2 (100 * top10sum (l.filter (fun a => decide (0 < a))) /
            (l.filter (fun a => decide (0 < a))).sum)⟩) ∧
    (l.filter (fun a => decide (0 < a)) ≠ [] →
      get_holders_info_fallback (some l) =
        ⟨(l.filter (fun a => decide (0 < a))).length,
          round2 (100 * top10sum (l.filter (fun a => decide (0 < a))) /
            (l.filter (fun a => decide (0 < a))).sum)⟩) ∧
    (l ≠ [] → 0 < l.sum →
      get_holders_info_solscan_alternative (some (some l)) =
        ⟨l.length, round2 (100 * top10sum l / l.sum)⟩) ∧
    (l ≠ [] → l.sum = 0 →
      (get_holders_info_solscan_alternative (some (some l))).top_10_share = 0) := by
  refine ⟨?_, ?_, ?_, ?_⟩
  · intro h
    have hl : ¬ l.isEmpty = true := by
      intro hl
      rw [List.isEmpty_iff] at hl
      subst hl
      exact h rfl
    have hlen : ¬ (l.filter (fun a => decide (0 < a))).length = 0 := by
      simpa [List.length_eq_zero] using h
    simp only [tryHelius, if_neg hl, if_neg hlen]
    rw [distOfAmounts_eq _ (filter_pos_sum_pos l h)]
  · intro h
    have hlen : ¬ (l.filter (fun a => decide (0 < a))).length = 0 := by
      simpa [List.length_eq_zero] using h
    simp only [get_holders_info_fallback, if_neg hlen]
    rw [distOfAmounts_eq _ (filter_pos_sum_pos l h)]
  · intro h hpos
    have hl : ¬ l.isEmpty = true := by simpa [List.isEmpty_iff] using h
    simp only [get_holders_info_solscan_alternative, if_neg hl]
    rw [if_pos hpos]
    have harg : (List.take 10 (sortDesc l)).sum / l.sum * 100
        = 100 * top10sum l / l.sum := by
      unfold top10sum; ring
    rw [harg]
  · intro h hzero
    have hl : ¬ l.isEmpty = true := by simpa [List.isEmpty_iff] using h
    simp only [get_holders_info_solscan_alternative, if_neg hl]
    rw [hzero, if_neg (lt_irrefl 0)]
    show round2 0 = 0
    norm_num [round2]

/-- C7 witness: the indexer strategy on accounts with amounts 3 and 1. -/
theorem c7_top10_share_witness :
    ([3, 1] : List ℚ).filter (fun a => decide (0 < a)) ≠ [] ∧
    tryHelius (some ([3, 1] : List ℚ)) =
      some ⟨(([3, 1] : List ℚ).filter (fun a => decide (0 < a))).length,
        round2 (100 * top10sum (([3, 1] : List ℚ).filter (fun a => decide (0 < a))) /
          (([3, 1] : List ℚ).filter (fun a => decide (0 < a))).sum)⟩ :=
  ⟨by
      norm_num [List.filter_cons, List.filter_nil]
      exact List.cons_ne_nil _ _,
   (c7_top10_share [3, 1]).1 (by
      norm_num [List.filter_cons, List.filter_nil]
      exact List.cons_ne_nil _ _)⟩

/-- C3: the validator accepts exactly the strings whose length lies in
[32, 44] and that decode under base-58; for every rejected string,
`analyze_token` returns the invalid-identifier error immediately, with a
result independent of every external response (no network call). -/
theorem c3_validator_gate (s : String) (w w' : World) :
    (is_valid_mint s = true ↔
      (32 ≤ s.length ∧ s.length ≤ 44 ∧ b58decodes s = true)) ∧
    (is_valid_mint s = false →
      analyze_token s w = .error .invalidMint ∧
      analyze_token s w = analyze_token s w') := by
  constructor
  · unfold is_valid_mint
    split_ifs with h
    · constructor
      · intro hfalse
        cases hfalse
      · rintro ⟨h32, h44, -⟩
        rcases h with h | h | h
        · have h0 : s.length = 0 := by rw [h]; rfl
          omega
        · omega
        · omega
    · push_neg at h
      obtain ⟨-, h32, h44⟩ := h
      constructor
      · intro hb
        exact ⟨by omega, by omega, hb⟩
      · rintro ⟨-, -, hb⟩
        exact hb
  · intro h
    refine ⟨by simp [analyze_token, h], ?_⟩
    simp [analyze_token, h]

/-- C3 witness: a 3-character string is rejected and `analyze_token` returns
the invalid-identifier error on it. -/
theorem c3_validator_gate_witness :
    is_valid_mint "abc" = false ∧
    analyze_token "abc" emptyWorld = .error .invalidMint :=
  ⟨by decide,
   ((c3_validator_gate "abc" emptyWorld emptyWorld).2 (by decide)).1⟩

/-- C4: in the merge step, the reconciled supply is the supply reported by
the ledger RPC when that is non-zero and the metadata supply otherwise, and
the same rule applies independently to decimals. -/
theorem c4_supply_merge (mint : String) (dd : MarketData) (md : TokenMetadata)
    (si : SupplyInfo) (hi : HolderDist) (rug : Bool) :
    analyze_token_merge mint ⟨.ok dd, .ok md, .ok si, .ok hi⟩ rug =
      .ok (mergeRecord mint dd md si hi rug) ∧
    (mergeRecord mint dd md si hi rug).supply =
      (if si.supply ≠ 0 then si.supply else md.supply) ∧
    (mergeRecord mint dd md si hi rug).decimals =
      (if si.decimals ≠ 0 then si.decimals else md.decimals) :=
  ⟨rfl, rfl, rfl⟩

/-- C8: the risk assessor returns `true` exactly when the parsed account
carries a non-null `freezeAuthority` or a non-null `mintAuthority`, and every
transport or parse failure yields `false` (no risk detected). -/
theorem c8_rug_pull_risk (resp : Option (Option AccountValue)) :
    (check_rug_pull_risk resp = true ↔
      ∃ v info, resp = some (some v) ∧ v.data = some info ∧
        (info.freezeAuthority.isSome ∨ info.mintAuthority.isSome)) ∧
    check_rug_pull_risk none = false := by
  refine ⟨?_, rfl⟩
  match resp with
  | none => simp [check_rug_pull_risk]
  | some none => simp [check_rug_pull_risk]
  | some (some v) =>
    cases hd : v.data with
    | none => simp [check_rug_pull_risk, hd]
    | some info => simp [check_rug_pull_risk, hd, Bool.or_eq_true]

/-- C9: the derived market cap equals `priceUsd * supply / 10 ^ decimals`,
and equals 0 whenever the supply is 0 (the only applicable guard: `decimals`
is a natural number here, so the `decimals < 0` disjunct of the source guard
never fires). -/
theorem c9_market_cap (price_usd : ℚ) (supply decimals : ℕ) :
    calculate_market_cap price_usd supply decimals
      = price_usd * supply / 10 ^ decimals ∧
    calculate_market_cap price_usd 0 decimals = 0 := by
  constructor
  · unfold calculate_market_cap
    split_ifs with h
    · rcases h with h | h
      · subst h
        simp
      · exact absurd h (Nat.not_lt_zero _)
    · show price_usd * ((supply : ℚ) / 10 ^ decimals) = _
      rw [mul_div_assoc]
  · simp [calculate_market_cap]

/-- C5: every category awards points as a step function with inclusive
thresholds exactly as in the rubric table, the total is their capped sum,
and the boundary examples hold (volume 999999.99 scores 2, volume 1000000
scores 3, liquidity 10000 scores 1, liquidity 9999.99 scores 0). -/
theorem c5_score_thresholds (pools holders : ℕ)
    (volume liquidity price_change market_cap top_10_share : ℚ) (rug : Bool) :
    pools_points pools = (if pools ≥ 5 then 2 else if pools ≥ 2 then 1 else 0) ∧
    volume_points volume = (if volume ≥ 1000000 then 3 else if volume ≥ 100000 then 2
      else if volume ≥ 10000 then 1 else 0) ∧
    liquidity_points liquidity = (if liquidity ≥ 1000000 then 3
      else if liquidity ≥ 100000 then 2 else if liquidity ≥ 10000 then 1 else 0) ∧
    stability_points price_change = (if |price_change| ≤ 5 then 2
      else if |price_change| ≤ 15 then 1 else 0) ∧
    market_cap_points market_cap = (if market_cap ≥ 10000000 then 3
      else if market_cap ≥ 1000000 then 2 else if market_cap ≥ 100000 then 1 else 0) ∧
    holders_points holders = (if holders ≥ 10000 then 3 else if holders ≥ 1000 then 2
      else if holders ≥ 100 then 1 else 0) ∧
    distribution_points top_10_share = (if top_10_share ≤ 20 then 2
      else if top_10_share ≤ 50 then 1 else 0) ∧
    security_points rug = (if rug = false then 2 else 0) ∧
    (calculate_score ⟨some pools, some volume, some liquidity, some price_change,
        some market_cap, some holders, some top_10_share, some rug⟩).1 =
      min (pools_points pools + volume_points volume + liquidity_points liquidity
        + stability_points price_change + market_cap_points market_cap
        + holders_points holders + distribution_points top_10_share
        + security_points rug) 20 ∧
    volume_points (99999999 / 100 : ℚ) = 2 ∧ volume_points 1000000 = 3 ∧
    liquidity_points 10000 = 1 ∧ liquidity_points (999999 / 100 : ℚ) = 0 := by
  refine ⟨rfl, rfl, rfl, rfl, rfl, rfl, rfl, by cases rug <;> rfl, rfl, ?_, ?_, ?_, ?_⟩
  · norm_num [volume_points]
  · norm_num [volume_points]
  · norm_num [liquidity_points]
  · norm_num [liquidity_points]

lemma pools_points_le (n : ℕ) : pools_points n ≤ 2 := by
  unfold pools_points; split_ifs <;> omega

lemma volume_points_le (v : ℚ) : volume_points v ≤ 3 := by
  unfold volume_points; split_ifs <;> omega

lemma liquidity_points_le (v : ℚ) : liquidity_points v ≤ 3 := by
  unfold liquidity_points; split_ifs <;> omega

lemma stability_points_le (v : ℚ) : stability_points v ≤ 2 := by
  unfold stability_points; split_ifs <;> omega

lemma market_cap_points_le (v : ℚ) : market_cap_points v ≤ 3 := by
  unfold market_cap_points; split_ifs <;> omega

lemma holders_points_le (n : ℕ) : holders_points n ≤ 3 := by
  unfold holders_points; split_ifs <;> omega

lemma distribution_points_le (v : ℚ) : distribution_points v ≤ 2 := by
  unfold distribution_points; split_ifs <;> omega

lemma security_points_le (b : Bool) : security_points b ≤ 2 := by
  unfold security_points; split_ifs <;> omega

lemma raw_score_le (d : ScoreInput) : raw_score d ≤ 20 := by
  unfold raw_score
  have h1 := pools_points_le (d.pools.getD 0)
  have h2 := volume_points_le (d.volume_24h.getD 0)
  have h3 := liquidity_points_le (d.liquidity.getD 0)
  have h4 := stability_points_le (d.price_change_24h.getD 0)
  have h5 := market_cap_points_le (d.market_cap.getD 0)
  have h6 := holders_points_le (d.holders.getD 0)
  have h7 := distribution_points_le (d.top_10_share.getD 100)
  have h8 := security_points_le (d.rug_pull_risk.getD true)
  omega

/-- C6: the total score is the uncapped category sum (so the cap at 20 never
truly clamps), lies in [0, 20], each category is bounded by its rubric
maximum, and those maxima sum to exactly 20. -/
theorem c6_score_bounds (d : ScoreInput) :
    (calculate_score d).1 = raw_score d ∧
    (calculate_score d).1 ≤ 20 ∧
    (∀ n : ℕ, pools_points n ≤ 2) ∧ (∀ v : ℚ, volume_points v ≤ 3) ∧
    (∀ v : ℚ, liquidity_points v ≤ 3) ∧ (∀ v : ℚ, stability_points v ≤ 2) ∧
    (∀ v : ℚ, market_cap_points v ≤ 3) ∧ (∀ n : ℕ, holders_points n ≤ 3) ∧
    (∀ v : ℚ, distribution_points v ≤ 2) ∧ (∀ b : Bool, security_points b ≤ 2) ∧
    2 + 3 + 3 + 2 + 3 + 3 + 2 + 2 = 20 := by
  refine ⟨?_, ?_, pools_points_le, volume_points_le, liquidity_points_le,
    stability_points_le, market_cap_points_le, holders_points_le,
    distribution_points_le, security_points_le, rfl⟩
  · show min (raw_score d) 20 = raw_score d
    exact min_eq_left (raw_score_le d)
  · show min (raw_score d) 20 ≤ 20
    exact min_le_right _ _

lemma calculate_score_all_missing :
    (calculate_score ⟨none, none, none, none, none, none, none, none⟩).1 = 2 := by
  show min (raw_score ⟨none, none, none, none, none, none, none, none⟩) 20 = 2
  norm_num [raw_score, pools_points, volume_points, liquidity_points,
    stability_points, market_cap_points, holders_points, distribution_points,
    security_points]

/-- C10 (counterexample): a scoring input with every key missing awards 2
points, not 0: the price-change default of 0 lands in the best stability
band (|0| ≤ 5, full 2 points), so a record with no data does not award the
worst band in every defaulted category. -/
theorem c10_defaults_counterexample :
    (calculate_score ⟨none, none, none, none, none, none, none, none⟩).1 = 2 ∧
    stability_points ((none : Option ℚ).getD 0) = 2 ∧
    (calculate_score ⟨none, none, none, none, none, none, none, none⟩).1 ≠ 0 := by
  refine ⟨calculate_score_all_missing, by norm_num [stability_points], ?_⟩
  rw [calculate_score_all_missing]
  norm_num

/-- C10 (amended): a missing field is scored exactly as its default (numeric
market/holder fields 0, top-10 share 100, rug-pull risk true); the defaults
for top-10 share and rug-pull risk award the worst band (0 points), but the
price-change default of 0 awards the best stability band (2 points), so an
all-missing record scores 2, not 0. -/
theorem c10_score_defaults_amended (d : ScoreInput) :
    calculate_score d = calculate_score
      ⟨some (d.pools.getD 0), some (d.volume_24h.getD 0), some (d.liquidity.getD 0),
       some (d.price_change_24h.getD 0), some (d.market_cap.getD 0),
       some (d.holders.getD 0), some (d.top_10_share.getD 100),
       some (d.rug_pull_risk.getD true)⟩ ∧
    distribution_points ((none : Option ℚ).getD 100) = 0 ∧
    security_points ((none : Option Bool).getD true) = 0 ∧
    stability_points ((none : Option ℚ).getD 0) = 2 ∧
    (calculate_score ⟨none, none, none, none, none, none, none, none⟩).1 = 2 := by
  exact ⟨rfl, by norm_num [distribution_points], rfl,
    by norm_num [stability_points], calculate_score_all_missing⟩

/-- C2 (counterexample): when the market-data coroutine raises and
`asyncio.gather(..., return_exceptions=True)` hands its exception object to
the merge step, `analyze_token` returns the analysis-failed error, not a
complete record with zero market fields. -/
theorem c2_fault_isolation_counterexample :
    analyze_token_merge usdcMint
      ⟨.error (), .ok (get_token_metadata none), .ok (get_token_supply_info none),
       .ok zeroHolderDist⟩ false = .error .analysisFailed := rfl

/-- C2 (amended): each of the four data sources converts its own transport
failure to its zero/default value inside the source, so for every valid
identifier `analyze_token` returns a complete record in which each failed
component holds its zero/default values and the score is computed over the
record's own fields; but an exception escaping a gathered fetch coroutine
itself is returned as an exception object by
`asyncio.gather(return_exceptions=True)` and makes the merge step fail with
the analysis-failed error, whichever of the four slots holds it. -/
theorem c2_fault_isolation_amended (mint : String) (w : World)
    (hv : is_valid_mint mint = true) :
    (∃ r : AnalysisRecord,
      analyze_token mint w = .ok r ∧
      (w.dexResp = none →
        r.pools = 0 ∧ r.price_usd = 0 ∧ r.price_change_24h = 0 ∧
        r.volume_24h = 0 ∧ r.liquidity = 0) ∧
      (w.metaResp = none → r.name = "Unknown" ∧ r.symbol = "Unknown") ∧
      (w.supplyResp = none →
        r.supply = (get_token_metadata w.metaResp).supply ∧
        r.decimals = (get_token_metadata w.metaResp).decimals) ∧
      (w.heliusAccounts = none → w.solscanResp = none → w.programAccounts = none →
        r.holders = 0 ∧ r.top_10_share = 0) ∧
      r.score = (calculate_score ⟨some r.pools, some r.volume_24h, some r.liquidity,
        some r.price_change_24h, some r.market_cap, some r.holders,
        some r.top_10_share, some r.rug_pull_risk⟩).1) ∧
    (∀ (mint2 : String) (g : GatherOutcome) (rug : Bool),
      (g.dex_data = .error () ∨ g.metadata = .error () ∨
       g.supply_info = .error () ∨ g.holders_info = .error ()) →
      analyze_token_merge mint2 g rug = .error .analysisFailed) := by
  constructor
  · refine ⟨mergeRecord mint (get_dexscreener_data w.dexResp)
      (get_token_metadata w.metaResp) (get_token_supply_info w.supplyResp)
      (get_holders_info w) (check_rug_pull_risk w.accountInfoResp),
      ?_, ?_, ?_, ?_, ?_, rfl⟩
    · simp [analyze_token, hv, analyze_token_merge]
    · intro hdex
      rw [hdex]
      exact ⟨rfl, rfl, rfl, rfl, rfl⟩
    · intro hmeta
      rw [hmeta]
      exact ⟨rfl, rfl⟩
    · intro hsup
      rw [hsup]
      exact ⟨rfl, rfl⟩
    · intro h1 h2 h3
      have hz : get_holders_info w = zeroHolderDist := by
        simp [get_holders_info, get_holders_info_helius, tryHelius, h1, h2, h3,
          get_holders_info_fallback, get_holders_info_solscan_alternative,
          zeroHolderDist]
      constructor
      · show (get_holders_info w).holders = 0
        rw [hz]
        rfl
      · show (get_holders_info w).top_10_share = 0
        rw [hz]
        rfl
  · intro mint2 g rug h
    obtain ⟨d, m, si, hi⟩ := g
    cases d with
    | error e => rfl
    | ok dd =>
      cases m with
      | error e => rfl
      | ok md =>
        cases si with
        | error e => rfl
        | ok sii =>
          cases hi with
          | error e => rfl
          | ok hii => rcases h with h | h | h | h <;> simp at h

/-- C2 witness: the amended theorem at the USDC mint and the all-failure
world. -/
theorem c2_fault_isolation_witness :
    is_valid_mint usdcMint = true ∧
    (∃ r : AnalysisRecord, analyze_token usdcMint emptyWorld = .ok r ∧
      r.pools = 0 ∧ r.holders = 0) := by
  have h := c2_fault_isolation_amended usdcMint emptyWorld (by decide)
  obtain ⟨r, hok, hdex, hmeta, hsup, hhold, hscore⟩ := h.1
  exact ⟨by decide, r, hok, (hdex rfl).1, (hhold rfl rfl rfl).1⟩

end AnalyseBot
